import Mathlib

/-!
Shallow embedding of the carlyzer post-detection analysis pipeline
(src/components/VehicleAnalyzer.tsx): the color taxonomy, the region
sampler / color extractor with its confidence/fallback policy, the frame
standardizer and coordinate rescaler, and the session / continuous-loop
state machines.  Numeric values that are JS floats in the source are
modelled as exact rationals; pixel channel values are naturals 0–255.
-/

namespace Carlyzer

/-- One RGBA quad of an ImageData buffer; channel values are 0–255. -/
structure Pixel where
  r : Nat
  g : Nat
  b : Nat
  a : Nat
deriving DecidableEq, Repr

/-- Brightness `(r + g + b) / 3` used by the pixel filters. -/
def brightness (p : Pixel) : ℚ :=
  ((p.r : ℚ) + (p.g : ℚ) + (p.b : ℚ)) / 3

/-- Embeds `rgbToHsl`: standard RGB→HSL conversion, h ∈ [0,360), s,l ∈ [0,1].
In the source `h` and `s` stay 0 when `diff == 0`. -/
def rgbToHsl (r0 g0 b0 : ℚ) : ℚ × ℚ × ℚ :=
  let r := r0 / 255
  let g := g0 / 255
  let b := b0 / 255
  let mx := max r (max g b)
  let mn := min r (min g b)
  let diff := mx - mn
  let l := (mx + mn) / 2
  if diff = 0 then
    (0, 0, l)
  else
    let s := if l > 0.5 then diff / (2 - mx - mn) else diff / (mx + mn)
    let h :=
      if mx = r then ((g - b) / diff + (if g < b then 6 else 0)) / 6
      else if mx = g then ((b - r) / diff + 2) / 6
      else ((r - g) / diff + 4) / 6
    (h * 360, s, l)

/-- Grayscale bucket of `getAdvancedColorName` (taken when `s < 0.08`). -/
def grayName (l : ℚ) : String :=
  if l > 0.85 then "Pearl White"
  else if l > 0.75 then "Silver"
  else if l > 0.65 then "Light Gray"
  else if l > 0.55 then "Medium Gray"
  else if l > 0.45 then "Gray"
  else if l > 0.35 then "Dark Gray"
  else if l > 0.25 then "Charcoal"
  else "Black"

/-- BROWN/TAN band of `getAdvancedColorName`. -/
def brownBand (h s l : ℚ) : Option String :=
  if 0.08 ≤ s ∧ s < 0.4 ∧ 15 ≤ h ∧ h < 55 then
    some (if l > 0.7 then "Cream"
      else if l > 0.6 then "Beige"
      else if l > 0.5 then "Tan"
      else if l > 0.4 then "Light Brown"
      else if l > 0.3 then "Brown"
      else if l > 0.2 then "Dark Brown"
      else "Chocolate")
  else none

/-- RED SPECTRUM band of `getAdvancedColorName`. -/
def redBand (h s l : ℚ) : Option String :=
  if (340 ≤ h ∨ h < 20) ∧ 0.12 ≤ s then
    some (if l > 0.75 then "Light Pink"
      else if l > 0.65 then "Rose"
      else if l > 0.55 then "Light Red"
      else if l > 0.45 then "Red"
      else if l > 0.35 then "Crimson"
      else if l > 0.25 then "Dark Red"
      else "Maroon")
  else none

/-- PINK/MAGENTA band of `getAdvancedColorName`. -/
def pinkBand (h s l : ℚ) : Option String :=
  if 300 ≤ h ∧ h < 340 ∧ 0.15 ≤ s then
    some (if l > 0.75 then "Light Pink"
      else if l > 0.65 then "Pink"
      else if l > 0.55 then "Hot Pink"
      else if l > 0.45 then "Fuchsia"
      else if l > 0.35 then "Magenta"
      else "Deep Pink")
  else none

/-- ORANGE SPECTRUM band of `getAdvancedColorName`. -/
def orangeBand (h s l : ℚ) : Option String :=
  if 10 ≤ h ∧ h < 40 ∧ 0.2 ≤ s then
    some (if l > 0.75 then "Peach"
      else if l > 0.65 then "Light Orange"
      else if l > 0.55 then "Orange"
      else if l > 0.45 then "Burnt Orange"
      else if l > 0.35 then "Dark Orange"
      else "Rust")
  else none

/-- YELLOW SPECTRUM band of `getAdvancedColorName`. -/
def yellowBand (h s l : ℚ) : Option String :=
  if 40 ≤ h ∧ h < 70 ∧ 0.2 ≤ s then
    some (if l > 0.8 then "Cream"
      else if l > 0.7 then "Light Yellow"
      else if l > 0.6 then "Yellow"
      else if l > 0.5 then "Gold"
      else if l > 0.4 then "Mustard"
      else "Amber")
  else none

/-- GREEN SPECTRUM band of `getAdvancedColorName` (four hue sub-bands; the
inner guards fall through — kept as `Option` exactly like the source). -/
def greenBand (h s l : ℚ) : Option String :=
  if 70 ≤ h ∧ h < 170 ∧ 0.1 ≤ s then
    if 70 ≤ h ∧ h < 90 then
      some (if l > 0.7 then "Lime"
        else if l > 0.6 then "Light Green"
        else if l > 0.5 then "Green"
        else if l > 0.4 then "Forest Green"
        else "Dark Green")
    else if 90 ≤ h ∧ h < 120 then
      some (if l > 0.7 then "Mint Green"
        else if l > 0.6 then "Light Green"
        else if l > 0.5 then "Green"
        else if l > 0.4 then "Emerald"
        else "Dark Green")
    else if 120 ≤ h ∧ h < 150 then
      some (if l > 0.7 then "Seafoam"
        else if l > 0.6 then "Light Green"
        else if l > 0.5 then "Teal"
        else if l > 0.4 then "Green"
        else "Dark Teal")
    else if 150 ≤ h ∧ h < 170 then
      some (if l > 0.6 then "Turquoise"
        else if l > 0.5 then "Cyan"
        else if l > 0.4 then "Teal"
        else "Dark Teal")
    else none
  else none

/-- BLUE SPECTRUM band of `getAdvancedColorName` (three hue sub-bands). -/
def blueBand (h s l : ℚ) : Option String :=
  if 170 ≤ h ∧ h < 260 ∧ 0.15 ≤ s then
    if 170 ≤ h ∧ h < 200 then
      some (if l > 0.7 then "Light Blue"
        else if l > 0.6 then "Sky Blue"
        else if l > 0.5 then "Blue"
        else if l > 0.4 then "Royal Blue"
        else if l > 0.3 then "Navy"
        else "Dark Navy")
    else if 200 ≤ h ∧ h < 230 then
      some (if l > 0.7 then "Light Blue"
        else if l > 0.6 then "Blue"
        else if l > 0.5 then "Cobalt"
        else if l > 0.4 then "Blue"
        else if l > 0.3 then "Navy"
        else "Midnight Blue")
    else if 230 ≤ h ∧ h < 260 then
      some (if l > 0.7 then "Periwinkle"
        else if l > 0.6 then "Light Blue"
        else if l > 0.5 then "Blue"
        else if l > 0.4 then "Indigo"
        else "Dark Blue")
    else none
  else none

/-- PURPLE SPECTRUM band of `getAdvancedColorName` (two hue sub-bands). -/
def purpleBand (h s l : ℚ) : Option String :=
  if 260 ≤ h ∧ h < 300 ∧ 0.15 ≤ s then
    if 260 ≤ h ∧ h < 280 then
      some (if l > 0.7 then "Lavender"
        else if l > 0.6 then "Light Purple"
        else if l > 0.5 then "Purple"
        else if l > 0.4 then "Violet"
        else "Dark Purple")
    else if 280 ≤ h ∧ h < 300 then
      some (if l > 0.7 then "Light Purple"
        else if l > 0.6 then "Purple"
        else if l > 0.5 then "Plum"
        else if l > 0.4 then "Purple"
        else "Dark Purple")
    else none
  else none

/-- Embeds `getAdvancedColorName`: the fixed decision table, evaluated
top-to-bottom with first match winning; no match yields `Mixed`. -/
def getAdvancedColorName (r g b : ℚ) : String :=
  match rgbToHsl r g b with
  | (h, s, l) =>
    if l < 0.12 then "Black"
    else if l > 0.88 ∧ s < 0.15 then "White"
    else if s < 0.08 then grayName l
    else
      ((((((((brownBand h s l).orElse fun _ => redBand h s l).orElse
        fun _ => pinkBand h s l).orElse
        fun _ => orangeBand h s l).orElse
        fun _ => yellowBand h s l).orElse
        fun _ => greenBand h s l).orElse
        fun _ => blueBand h s l).orElse
        fun _ => purpleBand h s l).getD "Mixed"

/-- The static color-name → hex table of `getColorHex`. -/
def colorHexTable : List (String × String) :=
  [("Pearl White", "#F8F8FF"), ("White", "#FFFFFF"), ("Silver", "#C0C0C0"),
   ("Light Gray", "#D3D3D3"), ("Medium Gray", "#A9A9A9"), ("Gray", "#808080"),
   ("Dark Gray", "#505050"), ("Charcoal", "#36454F"), ("Black", "#1C1C1C"),
   ("Cream", "#FFFDD0"), ("Beige", "#F5F5DC"), ("Tan", "#D2B48C"),
   ("Light Brown", "#CD853F"), ("Brown", "#8B4513"), ("Dark Brown", "#654321"),
   ("Chocolate", "#7B3F00"),
   ("Light Pink", "#FFB6C1"), ("Rose", "#FF69B4"), ("Light Red", "#FF6B6B"),
   ("Red", "#DC143C"), ("Crimson", "#DC143C"), ("Dark Red", "#8B0000"),
   ("Maroon", "#800000"),
   ("Pink", "#FFC0CB"), ("Hot Pink", "#FF1493"), ("Fuchsia", "#FF00FF"),
   ("Magenta", "#FF00FF"), ("Deep Pink", "#FF1493"),
   ("Peach", "#FFCBA4"), ("Light Orange", "#FFA500"), ("Orange", "#FF8C00"),
   ("Burnt Orange", "#CC5500"), ("Dark Orange", "#FF8C00"), ("Rust", "#B7410E"),
   ("Light Yellow", "#FFFFE0"), ("Yellow", "#FFD700"), ("Gold", "#FFD700"),
   ("Mustard", "#FFDB58"), ("Amber", "#FFBF00"),
   ("Lime", "#00FF00"), ("Mint Green", "#98FB98"), ("Light Green", "#90EE90"),
   ("Green", "#228B22"), ("Forest Green", "#228B22"), ("Emerald", "#50C878"),
   ("Seafoam", "#9FE2BF"), ("Teal", "#008080"), ("Dark Teal", "#003D3D"),
   ("Turquoise", "#40E0D0"), ("Cyan", "#00FFFF"), ("Dark Green", "#006400"),
   ("Sky Blue", "#87CEEB"), ("Light Blue", "#ADD8E6"), ("Blue", "#4169E1"),
   ("Royal Blue", "#4169E1"), ("Cobalt", "#0047AB"), ("Navy", "#000080"),
   ("Dark Navy", "#000080"), ("Midnight Blue", "#191970"),
   ("Periwinkle", "#CCCCFF"), ("Indigo", "#4B0082"), ("Dark Blue", "#00008B"),
   ("Lavender", "#E6E6FA"), ("Light Purple", "#DDA0DD"), ("Purple", "#800080"),
   ("Violet", "#8A2BE2"), ("Plum", "#DDA0DD"), ("Dark Purple", "#4B0082"),
   ("Mixed", "#808080")]

/-- Embeds `getColorHex`: table lookup, unknown names map to `#808080`. -/
def getColorHex (colorName : String) : String :=
  (colorHexTable.lookup colorName).getD "#808080"

/-- The per-vehicle-class default table of `getFallbackColor`. -/
def fallbackColorMap : List (String × (String × String)) :=
  [("car", ("Silver", "#C0C0C0")), ("truck", ("White", "#FFFFFF")),
   ("bus", ("Yellow", "#FFD700")), ("motorcycle", ("Black", "#333333")),
   ("bicycle", ("Blue", "#4169E1")), ("airplane", ("White", "#F5F5F5")),
   ("boat", ("White", "#FAFAFA")), ("train", ("Gray", "#808080"))]

/-- Models `toLowerCase` on the class-name strings: lowercases each
character. -/
def toLowerStr (s : String) : String :=
  ⟨s.data.map Char.toLower⟩

/-- Embeds `getFallbackColor` (name and hex only; every caller pairs it with
confidence 0.3 and method fallback): lowercased class looked up in the
default table, unknown classes map to Gray/`#808080`. -/
def getFallbackColor (vehicleType : String) : String × String :=
  (fallbackColorMap.lookup (toLowerStr vehicleType)).getD ("Gray", "#808080")

/-- Worker for `sampleEvery`: the skip counter runs down from `k - 1`
between reads, modelling the `i += 4*k` byte loops. -/
def sampleEveryAux (k : Nat) : Nat → List Pixel → List Pixel
  | _, [] => []
  | 0, p :: rest => p :: sampleEveryAux k (k - 1) rest
  | skip + 1, _ :: rest => sampleEveryAux k skip rest

/-- Reads one quad and skips `k - 1` quads, modelling the `i += 4*k` loops
over the RGBA byte array (`i += 8` is `sampleEvery 2`, `i += 16` is
`sampleEvery 4`). -/
def sampleEvery (k : Nat) (pixels : List Pixel) : List Pixel :=
  sampleEveryAux k 0 pixels

/-- The strategy-loop pixel filter: kept iff `a > 50`, `brightness > 2` and
`brightness < 255`. -/
def includePixelStrategy (p : Pixel) : Bool :=
  decide (50 < p.a) && decide ((2 : ℚ) < brightness p)
    && decide (brightness p < 255)

/-- The center-crop fallback pixel filter: kept iff `a > 30` and
`brightness > 1`. -/
def includePixelFallback (p : Pixel) : Bool :=
  decide (30 < p.a) && decide ((1 : ℚ) < brightness p)

/-- The pixels a region strategy classifies and counts: every 2nd pixel of
the buffer, filtered by the strategy thresholds. -/
def strategyValidPixels (pixels : List Pixel) : List Pixel :=
  (sampleEvery 2 pixels).filter includePixelStrategy

/-- The pixels the center-crop fallback counts: every 4th pixel of the
buffer, filtered by the fallback thresholds. -/
def fallbackValidPixels (pixels : List Pixel) : List Pixel :=
  (sampleEvery 4 pixels).filter includePixelFallback

/-- A `colorCounts` histogram: an association list in first-seen key order,
as a JS object with string keys enumerates. -/
abbrev Hist := List (String × Nat)

/-- One increment `colorCounts[name] = (colorCounts[name] || 0) + 1`. -/
def addCount : Hist → String → Hist
  | [], name => [(name, 1)]
  | (n, c) :: rest, name =>
    if n = name then (n, c + 1) :: rest else (n, c) :: addCount rest name

/-- Histogram of a list of color names. -/
def histogram (names : List String) : Hist :=
  names.foldl addCount []

/-- Embeds `Object.entries(colorCounts).sort((a, b) => b[1] - a[1])`: stable sort
by count, descending. -/
def sortColors (counts : Hist) : Hist :=
  counts.mergeSort fun x y => decide (y.2 ≤ x.2)

/-- The `blackColors` neutral set shared by both dominant-color passes. -/
def blackColors : List String :=
  ["Black", "Dark Gray", "Charcoal", "Mixed"]

/-- Sum of the counts of a histogram slice (the `reduce` over
`coloredPixels`). -/
def sumCounts (l : Hist) : Nat :=
  l.foldl (fun sum e => sum + e.2) 0

/-- Embeds the strategy-loop dominant-color selection: sort descending,
prefer the top non-neutral entry when non-neutral counts exceed 30% of the
valid pixels, otherwise the top entry overall; replace a `Mixed` winner by
the second-ranked entry when one exists.  Returns `("Unknown", 0)` for an
empty histogram (the loop's initial values). -/
def findDominantStrategy (counts : Hist) (totalValidPixels : Nat) :
    String × Nat :=
  let sortedColors := sortColors counts
  if sortedColors = [] then ("Unknown", 0)
  else
    let coloredPixels :=
      sortedColors.filter fun e => !(blackColors.contains e.1)
    let totalColoredPixels := sumCounts coloredPixels
    let dm :=
      if (totalColoredPixels : ℚ) > (totalValidPixels : ℚ) * 0.3 ∧
          coloredPixels ≠ [] then
        coloredPixels.headD ("Unknown", 0)
      else
        sortedColors.headD ("Unknown", 0)
    if dm.1 = "Mixed" ∧ sortedColors.length > 1 then
      sortedColors[1]?.getD ("Unknown", 0)
    else dm

/-- Embeds the center-crop fallback dominant-color selection: same
neutral-vs-colored preference, but no `Mixed` substitution. -/
def findDominantFallback (counts : Hist) (totalPixels : Nat) :
    String × Nat :=
  let sortedColors := sortColors counts
  if sortedColors = [] then ("Unknown", 0)
  else
    let coloredPixels :=
      sortedColors.filter fun e => !(blackColors.contains e.1)
    let totalColoredPixels := sumCounts coloredPixels
    if (totalColoredPixels : ℚ) > (totalPixels : ℚ) * 0.3 ∧
        coloredPixels ≠ [] then
      coloredPixels.headD ("Unknown", 0)
    else
      sortedColors.headD ("Unknown", 0)

/-- The `method` field of an extraction result (the `api-ai` variant is
declared in the source but never produced). -/
inductive ColorMethod where
  | pixelAnalysis
  | fallback
deriving DecidableEq, Repr

/-- The record `extractDominantColorWithDebug` resolves with (the
`debugImage` data URL is presentation-only and omitted). -/
structure ColorResult where
  color : String
  colorHex : String
  confidence : ℚ
  method : ColorMethod
  debugInfo : String
deriving DecidableEq, Repr

/-- The fixed strategy names, in evaluation order. -/
def strategyNames : List String :=
  ["Full Vehicle (Adjusted)", "Upper Body Area", "Main Body Panel"]

/-- The `Top colors:` part of a strategy's diagnostic string. -/
def topColorsStr (counts : Hist) : String :=
  String.intercalate ", "
    ((sortColors counts).take 3 |>.map
      fun e => e.1 ++ "(" ++ toString e.2 ++ ")")

/-- One pass of the strategy loop body over a region's pixel buffer:
stride-2 sampling, filtering, classification, histogram, dominant-color
selection, and the confidence rule (`min(count/total, 0.95)` above 50
valid pixels, else the fixed 0.4). -/
def analyzeStrategy (name : String) (pixels : List Pixel) : ColorResult :=
  let valid := strategyValidPixels pixels
  let totalValidPixels := valid.length
  let counts := histogram (valid.map fun p => getAdvancedColorName p.r p.g p.b)
  let dm := findDominantStrategy counts totalValidPixels
  let confidence : ℚ :=
    if totalValidPixels > 50 then
      min ((dm.2 : ℚ) / (totalValidPixels : ℚ)) 0.95
    else 0.4
  { color := dm.1
    colorHex := getColorHex dm.1
    confidence := confidence
    method := .pixelAnalysis
    debugInfo := "Strategy: " ++ name ++ ", Pixels: "
      ++ toString totalValidPixels ++ ", Top colors: " ++ topColorsStr counts }

/-- The strategy loop with its `bestResult` accumulator: a region whose
draw or pixel read failed (`none`) is skipped; otherwise its result
replaces the best exactly when its confidence is strictly higher. -/
def runStrategies :
    List (String × Option (List Pixel)) → Option ColorResult →
      Option ColorResult
  | [], best => best
  | (_, none) :: rest, best => runStrategies rest best
  | (nm, some px) :: rest, best =>
    let result := analyzeStrategy nm px
    match best with
    | none => runStrategies rest (some result)
    | some b =>
      runStrategies rest
        (some (if result.confidence > b.confidence then result else b))

/-- The center-crop fallback sampler body: stride-4 sampling with the looser
thresholds; produces a result (at fixed confidence 0.3) only when more than
5 valid pixels exist and the selected color is not `Unknown`. -/
def analyzeFallback (pixels : List Pixel) : Option ColorResult :=
  let valid := fallbackValidPixels pixels
  let totalPixels := valid.length
  let counts := histogram (valid.map fun p => getAdvancedColorName p.r p.g p.b)
  if totalPixels > 5 then
    let dm := findDominantFallback counts totalPixels
    if dm.1 ≠ "Unknown" then
      some { color := dm.1
             colorHex := getColorHex dm.1
             confidence := 0.3
             method := .pixelAnalysis
             debugInfo := "Fallback center sampling: " ++ dm.1 }
    else none
  else none

/-- The class-default tail of the extraction chain. -/
def finalFallbackResult (vehicleType : String) : ColorResult :=
  { color := (getFallbackColor vehicleType).1
    colorHex := (getFallbackColor vehicleType).2
    confidence := 0.3
    method := .fallback
    debugInfo := "All strategies failed, using fallback" }

/-- The extraction chain after the strategy loop: the center-crop fallback
(whose region read may itself fail, `none`), then the per-class default. -/
def afterStrategies (fallbackRead : Option (List Pixel))
    (vehicleType : String) : ColorResult :=
  match fallbackRead.bind analyzeFallback with
  | some r => r
  | none => finalFallbackResult vehicleType

/-- Embeds `extractDominantColorWithDebug`.  The frame and the region
geometry are abstracted into the pixel buffers each region read yields
(`none` models a null context or a throwing draw/read, which the source
catches and skips): `reads` are the three strategy regions in order,
`fallbackRead` the center-crop region.  A best strategy result is accepted
when its confidence exceeds 0.2; otherwise the center-crop fallback, then
the per-class default, is used. -/
def extractDominantColor (reads : List (Option (List Pixel)))
    (fallbackRead : Option (List Pixel)) (vehicleType : String) :
    ColorResult :=
  let best := runStrategies (strategyNames.zip reads) none
  match best with
  | some b =>
    if b.confidence > 0.2 then b
    else afterStrategies fallbackRead vehicleType
  | none => afterStrategies fallbackRead vehicleType

/-- A sampling region `{x, y, w, h}` as built by the strategy table and the
center-crop fallback. -/
structure Region where
  x : ℚ
  y : ℚ
  w : ℚ
  h : ℚ
deriving DecidableEq, Repr

/-- Strategy 1 "Full Vehicle (Adjusted)": shift up 30% of height (clamped at
0), height grown to 130%. -/
def strategy1Region (x y width height : ℚ) : Region :=
  { x := x, y := max 0 (y - height * 0.3), w := width, h := height * 1.3 }

/-- Strategy 2 "Upper Body Area": 5% horizontal inset, shift up 5% of height
(clamped at 0), 90% width, 80% height. -/
def strategy2Region (x y width height : ℚ) : Region :=
  { x := x + width * 0.05, y := max 0 (y - height * 0.05),
    w := width * 0.9, h := height * 0.8 }

/-- Strategy 3 "Main Body Panel": 10% horizontal inset, unshifted y, 80%
width, 70% height. -/
def strategy3Region (x y width height : ℚ) : Region :=
  { x := x + width * 0.1, y := y, w := width * 0.8, h := height * 0.7 }

/-- The center-crop fallback region: centered on the box, sized
`max(20, floor(0.4w)) × max(20, floor(0.3h))`. -/
def fallbackRegion (x y width height : ℚ) : Region :=
  let centerX := x + width / 2
  let centerY := y + height / 2
  let centerW : ℚ := max 20 ((⌊width * 0.4⌋ : ℤ) : ℚ)
  let centerH : ℚ := max 20 ((⌊height * 0.3⌋ : ℤ) : ℚ)
  { x := centerX - centerW / 2, y := centerY - centerH / 2,
    w := centerW, h := centerH }

/-- A bounding box `(x, y, width, height)`. -/
structure BBox where
  x : ℚ
  y : ℚ
  w : ℚ
  h : ℚ
deriving DecidableEq, Repr

/-- Embeds the dimension computation of `standardizeImage`: the largest
aspect-ratio-preserving size fitting in the target box (default 800×600). -/
def standardizeDims (ow oh targetWidth targetHeight : ℚ) : ℚ × ℚ :=
  let aspectRatio := ow / oh
  if aspectRatio > targetWidth / targetHeight then
    (targetWidth, targetWidth / aspectRatio)
  else
    (targetHeight * aspectRatio, targetHeight)

/-- Embeds the bbox adjustment of `detectVehiclesInImage`: component-wise
multiplication by `(scaleX, scaleY, scaleX, scaleY)`. -/
def rescaleBBox (scaleX scaleY : ℚ) (b : BBox) : BBox :=
  { x := b.x * scaleX, y := b.y * scaleY,
    w := b.w * scaleX, h := b.h * scaleY }

/-- The forward map into standardized-frame space (the space the detector
reports boxes in when a standardized canvas is used): component-wise
division by the same scale factors. -/
def forwardBBox (scaleX scaleY : ℚ) (b : BBox) : BBox :=
  { x := b.x / scaleX, y := b.y / scaleY,
    w := b.w / scaleX, h := b.h / scaleY }

/-- The component state a detection pass touches, with the record list
abstracted over the record type `V`. -/
structure SessionState (V : Type) where
  detectedVehicles : List V
  analyzing : Bool
  showAlert : Bool
  alertMessage : String
  hasAttemptedDetection : Bool
  lastDetectionTimestamp : Option String

/-- Outcome of one awaited `model.detect` round (plus the per-record
post-processing): either the final record list or a thrown error. -/
inductive DetectorOutcome (V : Type) where
  | success (vehicles : List V)
  | failure

/-- Embeds `detectVehiclesInImage` as a state transformer: sets the
analyzing flag, then on success replaces the record set (with a notice when
empty) and on a thrown detection error shows the error alert; in either
case finally clears the analyzing flag and marks detection attempted. -/
def detectVehiclesInImageStep {V : Type} (s : SessionState V)
    (outcome : DetectorOutcome V) : SessionState V :=
  let s1 := { s with analyzing := true }
  let s2 :=
    match outcome with
    | .success vehicles =>
      let s' :=
        if vehicles.length = 0 then
          { s1 with
            alertMessage := "No vehicles detected in this image."
            showAlert := true }
        else s1
      { s' with detectedVehicles := vehicles }
    | .failure =>
      { s1 with
        alertMessage :=
          "An error occurred during detection. Please try another image."
        showAlert := true }
  { s2 with analyzing := false, hasAttemptedDetection := true }

/-- Embeds `detectCurrentVideoFrame`: stamps the timestamp first, then on
success replaces the record set and marks detection attempted, and on a
thrown detection error shows the error alert (records untouched). -/
def detectCurrentVideoFrameStep {V : Type} (s : SessionState V)
    (outcome : DetectorOutcome V) (timestamp : String) : SessionState V :=
  let s1 := { s with lastDetectionTimestamp := some timestamp }
  match outcome with
  | .success vehicles =>
    let s' :=
      if vehicles.length = 0 then
        { s1 with
          alertMessage := "No vehicles detected in this frame."
          showAlert := true }
      else s1
    { s' with detectedVehicles := vehicles, hasAttemptedDetection := true }
  | .failure =>
    { s1 with
      alertMessage := "An error occurred during detection."
      showAlert := true }

/-- Embeds `handleDetectCurrentFrame`: raise the analyzing flag, await the
frame detection, clear the flag. -/
def handleDetectCurrentFrameStep {V : Type} (s : SessionState V)
    (outcome : DetectorOutcome V) (timestamp : String) : SessionState V :=
  let s2 := detectCurrentVideoFrameStep { s with analyzing := true }
    outcome timestamp
  { s2 with analyzing := false }

/-- State of the continuous-detection loop: `running` models
`continuousDetectionRef.current`, `continuousFlag` the rendered
`continuousDetection` state, `scheduled` whether an animation-frame
callback is pending, and the video's `ended`/`paused` flags. -/
structure LoopState where
  running : Bool
  continuousFlag : Bool
  analyzing : Bool
  scheduled : Bool
  ended : Bool
  paused : Bool
  frameCount : Nat
deriving DecidableEq, Repr

/-- Result of one `detectVehiclesInVideo` iteration: the state it leaves,
whether it scheduled a next iteration, and whether it ran a detection
pass. -/
structure IterResult where
  state : LoopState
  scheduledNext : Bool
  ranDetection : Bool
deriving DecidableEq, Repr

/-- Embeds one iteration of `detectVehiclesInVideo`.  Entry checks in
source order: video ended → stop continuous mode without scheduling;
`running` cleared → exit without scheduling; paused → exit without
scheduling (continuous mode kept).  Otherwise count the frame, run one
detection pass (errors inside it do not end the loop), then re-read the
flags — `running'`, `paused'`, `ended'` model `continuousDetectionRef`
and the video state after the awaited pass — and schedule the next
iteration only when `running'` is still set and the video neither paused
nor ended. -/
def detectVideoIteration (s : LoopState)
    (running' paused' ended' : Bool) : IterResult :=
  if s.ended then
    { state := { s with
                  analyzing := false, continuousFlag := false,
                  running := false, scheduled := false }
      scheduledNext := false, ranDetection := false }
  else if !s.running then
    { state := { s with analyzing := false, scheduled := false }
      scheduledNext := false, ranDetection := false }
  else if s.paused then
    { state := { s with analyzing := false, scheduled := false }
      scheduledNext := false, ranDetection := false }
  else
    let s1 := { s with frameCount := s.frameCount + 1,
                       running := running', paused := paused',
                       ended := ended' }
    if running' && !paused' && !ended' then
      { state := { s1 with scheduled := true }
        scheduledNext := true, ranDetection := true }
    else
      { state := { s1 with scheduled := false }
        scheduledNext := false, ranDetection := true }

/-- Embeds the stop branch of `toggleContinuousDetection`: clears the
continuous flags and the analyzing flag and synchronously cancels any
pending animation-frame callback. -/
def stopContinuousDetection (s : LoopState) : LoopState :=
  { s with continuousFlag := false, running := false,
           analyzing := false, scheduled := false }

/-! ## Claim-side definitions

Transcriptions of spec sentences, to be compared with the definitions
embedded from the source. -/

/-- Spec-side dominant-color policy, transcribed from the spec's words:
sort descending; if the non-neutral entries account for more than 30% of
the valid-pixel count pick the most frequent non-neutral entry, otherwise
the most frequent entry overall; if the chosen entry is `Mixed` and a
second-ranked entry exists, substitute the second-ranked entry. -/
def pickDominantClaim (counts : Hist) (totalValidPixels : Nat) :
    String × Nat :=
  let sortedColors := sortColors counts
  if sortedColors = [] then ("Unknown", 0)
  else
    let nonNeutral :=
      sortedColors.filter fun e => !(blackColors.contains e.1)
    let chosen :=
      if (sumCounts nonNeutral : ℚ) > (totalValidPixels : ℚ) * 0.3 then
        nonNeutral.headD ("Unknown", 0)
      else
        sortedColors.headD ("Unknown", 0)
    if chosen.1 = "Mixed" ∧ sortedColors.length > 1 then
      sortedColors[1]?.getD ("Unknown", 0)
    else chosen

/-- Spec-side pixel exclusion as the claim words it: alpha below 50,
brightness below 2, or brightness exactly 255. -/
def excludePixelClaim (p : Pixel) : Bool :=
  decide (p.a < 50) || decide (brightness p < 2)
    || decide (brightness p = 255)

/-- Spec-side strategy sampling as the claim words it: every 4th pixel,
keeping exactly the pixels its exclusion predicate does not reject. -/
def claimValidPixels (pixels : List Pixel) : List Pixel :=
  (sampleEvery 4 pixels).filter fun p => !(excludePixelClaim p)

/-- Amended exclusion predicate: a sampled pixel is excluded exactly when
its alpha is at most 50, its brightness at most 2, or its brightness at
least 255. -/
def excludePixelAmended (p : Pixel) : Bool :=
  decide (p.a ≤ 50) || decide (brightness p ≤ 2)
    || decide ((255 : ℚ) ≤ brightness p)

/-- Amended strategy sampling: every 2nd pixel (one RGBA quad skipped per
step), keeping exactly the pixels the amended exclusion does not reject. -/
def amendedValidPixels (pixels : List Pixel) : List Pixel :=
  (sampleEvery 2 pixels).filter fun p => !(excludePixelAmended p)

/-- Spec-side grayscale bucket: eight names by descending lightness
thresholds 0.85, 0.75, 0.65, 0.55, 0.45, 0.35, 0.25, from Pearl White down
to Black. -/
def claimGrayBucket (l : ℚ) : String :=
  if l > 0.85 then "Pearl White"
  else if l > 0.75 then "Silver"
  else if l > 0.65 then "Light Gray"
  else if l > 0.55 then "Medium Gray"
  else if l > 0.45 then "Gray"
  else if l > 0.35 then "Dark Gray"
  else if l > 0.25 then "Charcoal"
  else "Black"

/-! ## Helper lemmas -/

/-- A histogram slice whose counts exceed 30% of a natural total is
nonempty. -/
theorem sumCounts_gt_ne_nil {l : Hist} {total : Nat}
    (hgt : (sumCounts l : ℚ) > (total : ℚ) * 0.3) : l ≠ [] := by
  intro he
  subst he
  have h0 : (0 : ℚ) ≤ (total : ℚ) * 0.3 := by positivity
  simp only [sumCounts, List.foldl_nil, Nat.cast_zero, gt_iff_lt] at hgt
  linarith

/-- Any property holding of every strategy result fed into the
`bestResult` accumulator holds of its output. -/
theorem runStrategies_prop (Q : ColorResult → Prop) :
    ∀ (l : List (String × Option (List Pixel))) (best : Option ColorResult)
      (b : ColorResult),
      (∀ nm px, (nm, some px) ∈ l → Q (analyzeStrategy nm px)) →
      (∀ x, best = some x → Q x) →
      runStrategies l best = some b → Q b := by
  intro l
  induction l with
  | nil =>
    intro best b _ hbest hrun
    exact hbest b hrun
  | cons hd tl ih =>
    intro best b hmem hbest hrun
    obtain ⟨nm, px?⟩ := hd
    cases px? with
    | none =>
      exact ih best b (fun nm2 px2 hm => hmem nm2 px2 (List.mem_cons_of_mem _ hm))
        hbest (by simpa [runStrategies] using hrun)
    | some px =>
      have hq : Q (analyzeStrategy nm px) :=
        hmem nm px (List.mem_cons_self _ _)
      cases best with
      | none =>
        refine ih _ b
          (fun nm2 px2 hm => hmem nm2 px2 (List.mem_cons_of_mem _ hm)) ?_
          (by simpa [runStrategies] using hrun)
        intro x hx
        cases hx
        exact hq
      | some bb =>
        have hbb : Q bb := hbest bb rfl
        refine ih _ b
          (fun nm2 px2 hm => hmem nm2 px2 (List.mem_cons_of_mem _ hm)) ?_
          (by simpa [runStrategies] using hrun)
        intro x hx
        cases hx
        split
        · exact hq
        · exact hbb

/-! ## Claim theorems -/

/-- C2: for every histogram and valid-pixel total, the strategy-loop
dominant-color selection implements exactly the spec's policy: the most
frequent non-neutral name when non-neutral entries exceed 30% of the
valid pixels, else the most frequent name overall, with a `Mixed` winner
replaced by the second-ranked entry when one exists. -/
theorem C2_dominant_policy (counts : Hist) (total : Nat) :
    findDominantStrategy counts total = pickDominantClaim counts total := by
  unfold findDominantStrategy pickDominantClaim
  by_cases hnil : sortColors counts = []
  · simp only [if_pos hnil]
  · simp only [if_neg hnil]
    have hcond :
        ((sumCounts ((sortColors counts).filter
            fun e => !(blackColors.contains e.1)) : ℚ) > (total : ℚ) * 0.3 ∧
          ((sortColors counts).filter
            fun e => !(blackColors.contains e.1)) ≠ []) ↔
        (sumCounts ((sortColors counts).filter
            fun e => !(blackColors.contains e.1)) : ℚ) > (total : ℚ) * 0.3 :=
      ⟨And.left, fun hg => ⟨hg, sumCounts_gt_ne_nil hg⟩⟩
    simp only [hcond]

/-- C4 counterexample: on an explicit 4-pixel buffer the code's sampling
(every 2nd pixel, alpha ≤ 50 excluded) disagrees with the claim's
sampling (every 4th pixel, only alpha < 50 excluded). -/
theorem C4_counterexample :
    strategyValidPixels
        [⟨100, 100, 100, 50⟩, ⟨200, 0, 0, 255⟩,
         ⟨0, 0, 200, 255⟩, ⟨5, 5, 5, 255⟩] ≠
      claimValidPixels
        [⟨100, 100, 100, 50⟩, ⟨200, 0, 0, 255⟩,
         ⟨0, 0, 200, 255⟩, ⟨5, 5, 5, 255⟩] := by
  norm_num [strategyValidPixels, claimValidPixels, sampleEvery,
    sampleEveryAux, includePixelStrategy, excludePixelClaim, brightness]

/-- C4 (amended): strategy sampling iterates every 2nd pixel (skipping one
full RGBA quad each step) and excludes a sampled pixel exactly when its
alpha is at most 50/255, its brightness at most 2/255, or its brightness
at least 255; every other sampled pixel is counted. -/
theorem C4_sampling_amended (pixels : List Pixel) :
    strategyValidPixels pixels = amendedValidPixels pixels := by
  unfold strategyValidPixels amendedValidPixels
  refine List.filter_congr ?_
  intro p _
  unfold includePixelStrategy excludePixelAmended
  simp only [Bool.not_or, ← decide_not, not_le]

/-- C5 counterexample: not every region coordinate is clamped to
non-negative values — for the valid bounding box (0, 0, 10, 10) the
center-crop fallback region starts at x = −5. -/
theorem C5_counterexample :
    ¬ (∀ x y w h : ℚ, 0 ≤ x → 0 ≤ y → 0 < w → 0 < h →
        0 ≤ (strategy1Region x y w h).x ∧ 0 ≤ (strategy1Region x y w h).y ∧
        0 ≤ (strategy2Region x y w h).x ∧ 0 ≤ (strategy2Region x y w h).y ∧
        0 ≤ (strategy3Region x y w h).x ∧ 0 ≤ (strategy3Region x y w h).y ∧
        0 ≤ (fallbackRegion x y w h).x ∧ 0 ≤ (fallbackRegion x y w h).y) := by
  intro hall
  have hx := (hall 0 0 10 10 (by norm_num) (by norm_num) (by norm_num)
    (by norm_num)).2.2.2.2.2.2.1
  rw [fallbackRegion] at hx
  norm_num at hx

/-- C5 (amended): only the y coordinates of the first two strategy regions
are clamped to non-negative values before sampling; the strategy x
coordinates, strategy 3's y, and the center-crop fallback coordinates are
used unclamped. -/
theorem C5_clamp_amended (x y w h : ℚ) :
    0 ≤ (strategy1Region x y w h).y ∧ 0 ≤ (strategy2Region x y w h).y :=
  ⟨le_max_left 0 _, le_max_left 0 _⟩

/-- C9: when the detector call throws during a detection pass — the image
pass or the manual video-frame pass — the displayed record set is left
unchanged, the error alert is shown, and the analyzing flag ends up
cleared. -/
theorem C9_detector_failure_atomic {V : Type} (s : SessionState V)
    (t : String) :
    ((detectVehiclesInImageStep s .failure).detectedVehicles
        = s.detectedVehicles ∧
      (detectVehiclesInImageStep s .failure).showAlert = true ∧
      (detectVehiclesInImageStep s .failure).analyzing = false) ∧
    ((handleDetectCurrentFrameStep s .failure t).detectedVehicles
        = s.detectedVehicles ∧
      (handleDetectCurrentFrameStep s .failure t).showAlert = true ∧
      (handleDetectCurrentFrameStep s .failure t).analyzing = false) :=
  ⟨⟨rfl, rfl, rfl⟩, ⟨rfl, rfl, rfl⟩⟩

/-- C10: a loop iteration entered with the running flag cleared neither
runs a detection pass nor schedules another iteration; an iteration that
finds the flag cleared at the re-check before re-scheduling schedules
nothing; and stop clears the flag and cancels any pending scheduled
iteration synchronously. -/
theorem C10_scheduler_stop (s : LoopState)
    (running' paused' ended' : Bool) :
    ((detectVideoIteration { s with running := false }
        running' paused' ended').scheduledNext = false ∧
      (detectVideoIteration { s with running := false }
        running' paused' ended').ranDetection = false) ∧
    (detectVideoIteration s false paused' ended').scheduledNext = false ∧
    ((stopContinuousDetection s).running = false ∧
      (stopContinuousDetection s).scheduled = false) := by
  refine ⟨?_, ?_, rfl, rfl⟩
  · unfold detectVideoIteration
    by_cases he : s.ended <;> simp [he]
  · unfold detectVideoIteration
    by_cases he : s.ended <;> by_cases hr : s.running <;>
      by_cases hp : s.paused <;> simp [he, hr, hp]

/-- C7: for every positive original size and every box, forward-mapping the
box into standardized-frame space and rescaling it back with
`scaleX = originalWidth/newWidth`, `scaleY = originalHeight/newHeight`
reproduces the original box exactly (so in particular within
floating-point tolerance). -/
theorem C7_rescale_roundtrip (ow oh : ℚ) (bb : BBox)
    (how : 0 < ow) (hoh : 0 < oh) :
    rescaleBBox (ow / (standardizeDims ow oh 800 600).1)
        (oh / (standardizeDims ow oh 800 600).2)
        (forwardBBox (ow / (standardizeDims ow oh 800 600).1)
          (oh / (standardizeDims ow oh 800 600).2) bb) = bb := by
  have haspect : 0 < ow / oh := div_pos how hoh
  have h1 : (standardizeDims ow oh 800 600).1 ≠ 0 := by
    by_cases hc : ow / oh > (800 : ℚ) / 600
    · simp [standardizeDims, hc]
    · simp only [standardizeDims, if_neg hc]
      exact mul_ne_zero (by norm_num) (ne_of_gt haspect)
  have h2 : (standardizeDims ow oh 800 600).2 ≠ 0 := by
    by_cases hc : ow / oh > (800 : ℚ) / 600
    · simp only [standardizeDims, if_pos hc]
      exact div_ne_zero (by norm_num) (ne_of_gt haspect)
    · simp [standardizeDims, hc]
  have hsx : ow / (standardizeDims ow oh 800 600).1 ≠ 0 :=
    div_ne_zero (ne_of_gt how) h1
  have hsy : oh / (standardizeDims ow oh 800 600).2 ≠ 0 :=
    div_ne_zero (ne_of_gt hoh) h2
  obtain ⟨bx, byv, bw, bh⟩ := bb
  simp [rescaleBBox, forwardBBox, div_mul_cancel₀, hsx, hsy]

/-- Witness for C7 at a 400×300 image and the box (10, 20, 30, 40). -/
theorem C7_witness :
    rescaleBBox (400 / (standardizeDims 400 300 800 600).1)
        (300 / (standardizeDims 400 300 800 600).2)
        (forwardBBox (400 / (standardizeDims 400 300 800 600).1)
          (300 / (standardizeDims 400 300 800 600).2) ⟨10, 20, 30, 40⟩)
      = ⟨10, 20, 30, 40⟩ :=
  C7_rescale_roundtrip 400 300 ⟨10, 20, 30, 40⟩ (by norm_num) (by norm_num)

/-- C1: when every region-strategy extraction yields confidence at most 0.2
and the center-crop fallback finds fewer than 5 valid pixels, extraction
for vehicle class "truck" returns White, `#FFFFFF`, confidence 0.3,
method Fallback. -/
theorem C1_fallback_exhaustion (reads : List (Option (List Pixel)))
    (fb : List Pixel)
    (hconf : ∀ nm px, (nm, some px) ∈ strategyNames.zip reads →
      (analyzeStrategy nm px).confidence ≤ 0.2)
    (hfb : (fallbackValidPixels fb).length < 5) :
    (extractDominantColor reads (some fb) "truck").color = "White" ∧
    (extractDominantColor reads (some fb) "truck").colorHex = "#FFFFFF" ∧
    (extractDominantColor reads (some fb) "truck").confidence = 0.3 ∧
    (extractDominantColor reads (some fb) "truck").method
      = ColorMethod.fallback := by
  have hfbnone : analyzeFallback fb = none := by
    unfold analyzeFallback
    have hn5 : ¬ (fallbackValidPixels fb).length > 5 := by omega
    simp [hn5]
  have htruck : getFallbackColor "truck" = ("White", "#FFFFFF") := by decide
  unfold extractDominantColor
  cases hbest : runStrategies (strategyNames.zip reads) none with
  | none =>
    simp [afterStrategies, hfbnone, finalFallbackResult, htruck]
  | some b =>
    have hble : b.confidence ≤ 0.2 :=
      runStrategies_prop (fun r => r.confidence ≤ 0.2) _ _ _ hconf
        (by intro x hx; exact absurd hx (by simp)) hbest
    have hnb : ¬ b.confidence > 0.2 := not_lt.mpr hble
    simp [afterStrategies, hnb, hfbnone, finalFallbackResult, htruck]

/-- Witness for C1: three failed region reads and an empty center-crop
buffer. -/
theorem C1_witness :
    (extractDominantColor [none, none, none] (some []) "truck").color
        = "White" ∧
    (extractDominantColor [none, none, none] (some []) "truck").colorHex
        = "#FFFFFF" ∧
    (extractDominantColor [none, none, none] (some []) "truck").confidence
        = 0.3 ∧
    (extractDominantColor [none, none, none] (some []) "truck").method
        = ColorMethod.fallback :=
  C1_fallback_exhaustion [none, none, none] []
    (by intro nm px hmem; simp [strategyNames] at hmem)
    (by decide)

/-- A strategy whose region drew but holds zero valid pixels yields
`Unknown`/`#808080` at the fixed small-sample confidence 0.4. -/
theorem analyzeStrategy_empty_fields (nm : String) (px : List Pixel)
    (h : strategyValidPixels px = []) :
    (analyzeStrategy nm px).color = "Unknown" ∧
    (analyzeStrategy nm px).colorHex = "#808080" ∧
    (analyzeStrategy nm px).confidence = 0.4 ∧
    (analyzeStrategy nm px).method = ColorMethod.pixelAnalysis := by
  have hhex : getColorHex "Unknown" = "#808080" := by decide
  refine ⟨?_, ?_, ?_, ?_⟩ <;>
    simp [analyzeStrategy, h, histogram, findDominantStrategy, sortColors,
      hhex]

/-- C3: when all three region strategies draw successfully but count zero
valid pixels, extraction returns `Unknown`/`#808080` at confidence 0.4
with method pixel-analysis — for every fallback read and vehicle class,
so neither the center-crop fallback nor the class default is reached,
the fixed 0.4 exceeding the 0.2 acceptance threshold. -/
theorem C3_zero_valid_pixels (px1 px2 px3 : List Pixel)
    (fb : Option (List Pixel)) (vt : String)
    (h1 : (strategyValidPixels px1).length = 0)
    (h2 : (strategyValidPixels px2).length = 0)
    (h3 : (strategyValidPixels px3).length = 0) :
    (extractDominantColor [some px1, some px2, some px3] fb vt).color
        = "Unknown" ∧
    (extractDominantColor [some px1, some px2, some px3] fb vt).colorHex
        = "#808080" ∧
    (extractDominantColor [some px1, some px2, some px3] fb vt).confidence
        = 0.4 ∧
    (extractDominantColor [some px1, some px2, some px3] fb vt).method
        = ColorMethod.pixelAnalysis := by
  have e1 := analyzeStrategy_empty_fields "Full Vehicle (Adjusted)" px1
    (List.length_eq_zero.mp h1)
  have e2 := analyzeStrategy_empty_fields "Upper Body Area" px2
    (List.length_eq_zero.mp h2)
  have e3 := analyzeStrategy_empty_fields "Main Body Panel" px3
    (List.length_eq_zero.mp h3)
  have hzip : strategyNames.zip [some px1, some px2, some px3] =
      [("Full Vehicle (Adjusted)", some px1), ("Upper Body Area", some px2),
       ("Main Body Panel", some px3)] := rfl
  have hrun : runStrategies (strategyNames.zip [some px1, some px2, some px3])
      none = some (analyzeStrategy "Full Vehicle (Adjusted)" px1) := by
    rw [hzip]
    simp [runStrategies, e1.2.2.1, e2.2.2.1, e3.2.2.1]
  have hconf : (analyzeStrategy "Full Vehicle (Adjusted)" px1).confidence
      > 0.2 := by
    rw [e1.2.2.1]; norm_num
  unfold extractDominantColor
  rw [hrun]
  simp only [if_pos hconf]
  exact ⟨e1.1, e1.2.1, e1.2.2.1, e1.2.2.2⟩

/-- Witness for C3: three successfully drawn but empty region buffers. -/
theorem C3_witness :
    (extractDominantColor [some [], some [], some []] none "car").color
        = "Unknown" ∧
    (extractDominantColor [some [], some [], some []] none "car").colorHex
        = "#808080" ∧
    (extractDominantColor [some [], some [], some []] none "car").confidence
        = 0.4 ∧
    (extractDominantColor [some [], some [], some []] none "car").method
        = ColorMethod.pixelAnalysis :=
  C3_zero_valid_pixels [] [] [] none "car" (by decide) (by decide) (by decide)

/-- A string with a nonempty prefix is nonempty. -/
theorem prefix_append_ne_empty {a : String} (ha : a.length ≠ 0)
    (t : String) : a ++ t ≠ "" := by
  intro he
  have hlen := congrArg String.length he
  rw [String.length_append] at hlen
  have h0 : ("" : String).length = 0 := rfl
  rw [h0] at hlen
  omega

/-- Every strategy result is a pixel-analysis result whose diagnostic names
the strategy. -/
theorem analyzeStrategy_shape (nm : String) (px : List Pixel) :
    (analyzeStrategy nm px).method = ColorMethod.pixelAnalysis ∧
    ∃ t, (analyzeStrategy nm px).debugInfo = "Strategy: " ++ t := by
  constructor
  · rfl
  · unfold analyzeStrategy
    simp only [String.append_assoc]
    exact ⟨_, rfl⟩

/-- A successful center-crop fallback result is a pixel-analysis result
whose diagnostic names the fallback path. -/
theorem analyzeFallback_shape {px : List Pixel} {r : ColorResult}
    (h : analyzeFallback px = some r) :
    r.method = ColorMethod.pixelAnalysis ∧
    ∃ t, r.debugInfo = "Fallback center sampling: " ++ t := by
  simp only [analyzeFallback] at h
  split_ifs at h
  cases h
  exact ⟨rfl, ⟨_, rfl⟩⟩

/-- Everything past the strategy loop produces a diagnosed result, and its
fallback-method case is exactly the per-class default color. -/
theorem afterStrategies_shape (fallbackRead : Option (List Pixel))
    (vt : String) :
    ((afterStrategies fallbackRead vt).debugInfo ≠ "") ∧
    ((afterStrategies fallbackRead vt).method = ColorMethod.fallback →
      (afterStrategies fallbackRead vt).color = (getFallbackColor vt).1 ∧
      (afterStrategies fallbackRead vt).colorHex = (getFallbackColor vt).2 ∧
      (afterStrategies fallbackRead vt).confidence = 0.3 ∧
      (afterStrategies fallbackRead vt).debugInfo
        = "All strategies failed, using fallback") ∧
    ((afterStrategies fallbackRead vt).method = ColorMethod.pixelAnalysis →
      ∃ t, (afterStrategies fallbackRead vt).debugInfo
        = "Fallback center sampling: " ++ t) := by
  cases hfb : fallbackRead.bind analyzeFallback with
  | none =>
    have hext : afterStrategies fallbackRead vt = finalFallbackResult vt := by
      unfold afterStrategies
      rw [hfb]
    rw [hext]
    have hne : (finalFallbackResult vt).debugInfo ≠ "" := by
      show "All strategies failed, using fallback" ≠ ""
      decide
    refine ⟨hne, fun _ => ⟨rfl, rfl, rfl, rfl⟩, fun hm => ?_⟩
    exact absurd hm (by simp [finalFallbackResult])
  | some r2 =>
    have hext : afterStrategies fallbackRead vt = r2 := by
      unfold afterStrategies
      rw [hfb]
    rw [hext]
    obtain ⟨fpx, _, hfa⟩ := Option.bind_eq_some.mp hfb
    obtain ⟨hm2, t, ht⟩ := analyzeFallback_shape hfa
    refine ⟨?_, fun hm => ?_, fun _ => ⟨t, ht⟩⟩
    · rw [ht]
      exact prefix_append_ne_empty (by decide) t
    · rw [hm2] at hm
      exact absurd hm (by simp)

/-- C8: for every combination of region reads, fallback read, and vehicle
class, extraction returns a result (a total function of the fallible
reads — no failure escapes), whose diagnostic string is nonempty and names
the strategy or fallback path that produced it, and whose fallback-method
case carries exactly the per-class default color. -/
theorem C8_no_raise_diagnostics (reads : List (Option (List Pixel)))
    (fallbackRead : Option (List Pixel)) (vt : String) :
    ((extractDominantColor reads fallbackRead vt).debugInfo ≠ "") ∧
    ((extractDominantColor reads fallbackRead vt).method
        = ColorMethod.fallback →
      (extractDominantColor reads fallbackRead vt).color
          = (getFallbackColor vt).1 ∧
      (extractDominantColor reads fallbackRead vt).colorHex
          = (getFallbackColor vt).2 ∧
      (extractDominantColor reads fallbackRead vt).confidence = 0.3 ∧
      (extractDominantColor reads fallbackRead vt).debugInfo
          = "All strategies failed, using fallback") ∧
    ((extractDominantColor reads fallbackRead vt).method
        = ColorMethod.pixelAnalysis →
      (∃ t, (extractDominantColor reads fallbackRead vt).debugInfo
          = "Strategy: " ++ t) ∨
      (∃ t, (extractDominantColor reads fallbackRead vt).debugInfo
          = "Fallback center sampling: " ++ t)) := by
  obtain ⟨hafter1, hafter2, hafter3⟩ := afterStrategies_shape fallbackRead vt
  cases hbest : runStrategies (strategyNames.zip reads) none with
  | none =>
    have hext : extractDominantColor reads fallbackRead vt
        = afterStrategies fallbackRead vt := by
      unfold extractDominantColor
      rw [hbest]
    rw [hext]
    exact ⟨hafter1, hafter2, fun hm => Or.inr (hafter3 hm)⟩
  | some b =>
    have hext : extractDominantColor reads fallbackRead vt
        = if b.confidence > 0.2 then b
          else afterStrategies fallbackRead vt := by
      unfold extractDominantColor
      rw [hbest]
    have hQ : b.method = ColorMethod.pixelAnalysis ∧
        ∃ t, b.debugInfo = "Strategy: " ++ t :=
      runStrategies_prop
        (fun x => x.method = ColorMethod.pixelAnalysis ∧
          ∃ t, x.debugInfo = "Strategy: " ++ t)
        _ _ _ (fun nm px _ => analyzeStrategy_shape nm px)
        (fun x hx => Option.noConfusion hx) hbest
    by_cases hc : b.confidence > 0.2
    · obtain ⟨hm, t, ht⟩ := hQ
      rw [hext, if_pos hc]
      refine ⟨?_, fun hmf => ?_, fun _ => Or.inl ⟨t, ht⟩⟩
      · rw [ht]
        exact prefix_append_ne_empty (by decide) t
      · rw [hm] at hmf
        exact absurd hmf (by simp)
    · rw [hext, if_neg hc]
      exact ⟨hafter1, hafter2, fun hm => Or.inr (hafter3 hm)⟩

/-- Witness for C8's conditional parts at three failed reads, a failed
fallback read, and class "car": the fallback branch fires with the car
default (Silver, `#C0C0C0`). -/
theorem C8_witness :
    (extractDominantColor [none, none, none] none "car").color
        = (getFallbackColor "car").1 ∧
    (extractDominantColor [none, none, none] none "car").colorHex
        = (getFallbackColor "car").2 ∧
    (extractDominantColor [none, none, none] none "car").confidence = 0.3 ∧
    (extractDominantColor [none, none, none] none "car").debugInfo
        = "All strategies failed, using fallback" :=
  (C8_no_raise_diagnostics [none, none, none] none "car").2.1 rfl

/-- C6: the classification decision table is evaluated top-to-bottom with
first match winning — lightness below 0.12 yields Black; otherwise
lightness above 0.88 with saturation below 0.15 yields White; otherwise
saturation below 0.08 selects the eight-name grayscale bucket by
descending lightness thresholds 0.85…0.25 from Pearl White down to
Black. -/
theorem C6_color_table (r g b h s l : ℚ)
    (hhsl : rgbToHsl r g b = (h, s, l)) :
    (l < 0.12 → getAdvancedColorName r g b = "Black") ∧
    (¬ l < 0.12 → l > 0.88 ∧ s < 0.15 →
      getAdvancedColorName r g b = "White") ∧
    (¬ l < 0.12 → ¬ (l > 0.88 ∧ s < 0.15) → s < 0.08 →
      getAdvancedColorName r g b = claimGrayBucket l) := by
  have hred : getAdvancedColorName r g b =
      (if l < 0.12 then "Black"
       else if l > 0.88 ∧ s < 0.15 then "White"
       else if s < 0.08 then grayName l
       else
         ((((((((brownBand h s l).orElse fun _ => redBand h s l).orElse
           fun _ => pinkBand h s l).orElse
           fun _ => orangeBand h s l).orElse
           fun _ => yellowBand h s l).orElse
           fun _ => greenBand h s l).orElse
           fun _ => blueBand h s l).orElse
           fun _ => purpleBand h s l).getD "Mixed") := by
    unfold getAdvancedColorName
    rw [hhsl]
  refine ⟨fun h1 => ?_, fun h1 h2 => ?_, fun h1 h2 h3 => ?_⟩
  · rw [hred, if_pos h1]
  · rw [hred, if_neg h1, if_pos h2]
  · rw [hred, if_neg h1, if_neg h2, if_pos h3]
    rfl

/-- Witness for C6 at the RGB triple (0, 0, 0), whose lightness 0 falls in
the Black row. -/
theorem C6_witness : getAdvancedColorName 0 0 0 = "Black" := by
  have hhsl : rgbToHsl 0 0 0 = (0, 0, 0) := by norm_num [rgbToHsl]
  exact (C6_color_table 0 0 0 0 0 0 hhsl).1 (by norm_num)

end Carlyzer
